import Mathlib

/-!
Verification of the article/comment query-and-moderation data-access layer of
the shooon_lab blog platform: a shallow embedding of `server/db.ts`
(`getArticles`, `escapeLikePattern`, `incrementViewCount`, `deleteComment`,
`updateCommentStatus`, `setArticleTags`, ...) and of the tRPC operations in
`server/routers.ts` (`articles.list`, `articles.getById` / `getBySlug`,
`articles.create` / `update`, `comments.approve` / `reject` / `delete`),
together with theorems settling the specification's claims about them.

Database tables are lists of rows; MySQL timestamps are modelled as a calendar
year plus an intra-year sequence number (which is all `YEAR(...)` extraction
and ordering need); the `new Date()` calls of the mutation handlers become an
explicit `now` parameter.  Surrogate keys and the automatically maintained
`createdAt` / `updatedAt` columns are elided: no embedded operation reads them.
The MySQL LIKE matcher is modelled by lexing a pattern into tokens (`%`, `_`,
literal, with backslash as the escape character) and matching tokens against
the text.
-/

namespace Blog

/-- Article status enum of the `articles` table. -/
inductive ArtStatus
  | draft
  | published
  | archived
deriving DecidableEq, Repr

/-- Comment status enum of the `comments` table. -/
inductive ComStatus
  | pending
  | approved
  | rejected
deriving DecidableEq, Repr

/-- User role enum of the `users` table. -/
inductive Role
  | user
  | admin
deriving DecidableEq, Repr

/-- A MySQL timestamp, reduced to what the code observes: the calendar year
(`YEAR(...)`) and a sequence number ordering instants within a year. -/
structure Timestamp where
  year : Nat
  seq : Nat
deriving DecidableEq, Repr

/-- Row of the `users` table (fields the embedded operations read). -/
structure User where
  id : Nat
  openId : String
  name : Option String
  role : Role
deriving DecidableEq, Repr

/-- Row of the `series` table. -/
structure Series where
  id : Nat
  slug : String
  title : String
deriving DecidableEq, Repr

/-- Row of the `tags` table. -/
structure Tag where
  id : Nat
  slug : String
  name : String
deriving DecidableEq, Repr

/-- Row of the `articles` table. -/
structure Article where
  id : Nat
  slug : String
  title : String
  excerpt : Option String
  content : String
  coverImage : Option String
  authorId : Nat
  seriesId : Option Nat
  seriesOrder : Option Int
  weight : Int
  status : ArtStatus
  publishedAt : Option Timestamp
  gallery : Option (List String)
  footnotes : Option (List (String × String))
  viewCount : Nat
deriving DecidableEq, Repr

/-- Row of the `article_tags` join table (surrogate id elided; the unique
index is on the (articleId, tagId) pair). -/
structure ArticleTagRow where
  articleId : Nat
  tagId : Nat
deriving DecidableEq, Repr

/-- Row of the `comments` table. -/
structure Comment where
  id : Nat
  articleId : Nat
  authorId : Nat
  parentId : Option Nat
  content : String
  status : ComStatus
deriving DecidableEq, Repr

/-- The relational store. -/
structure DBState where
  users : List User
  series : List Series
  tags : List Tag
  articles : List Article
  articleTags : List ArticleTagRow
  comments : List Comment
deriving DecidableEq, Repr

/-! ## MySQL LIKE pattern semantics -/

/-- One token of a LIKE pattern after resolving escapes: `%` (any sequence),
`_` (any single character), or a literal character. -/
inductive LikeTok
  | anySeq
  | anyOne
  | lit (c : Char)
deriving DecidableEq, Repr

mutual

/-- Lex a LIKE pattern: backslash escapes the next character (a trailing lone
backslash stands for itself), `%` and `_` are wildcards, all else literal. -/
def lexLike : List Char → List LikeTok
  | [] => []
  | c :: rest =>
    if c = '\\' then lexLikeEsc rest
    else if c = '%' then LikeTok.anySeq :: lexLike rest
    else if c = '_' then LikeTok.anyOne :: lexLike rest
    else LikeTok.lit c :: lexLike rest
termination_by l => l.length

/-- Continue lexing right after a backslash: the next character (whatever it
is) becomes a literal token. -/
def lexLikeEsc : List Char → List LikeTok
  | [] => [LikeTok.lit '\\']
  | d :: rest => LikeTok.lit d :: lexLike rest
termination_by l => l.length

end

/-- Match a lexed LIKE pattern against a text. -/
def toksMatch : List LikeTok → List Char → Bool
  | [], t => t.isEmpty
  | LikeTok.anySeq :: p, [] => toksMatch p []
  | LikeTok.anySeq :: p, a :: t => toksMatch p (a :: t) || toksMatch (LikeTok.anySeq :: p) t
  | LikeTok.anyOne :: _, [] => false
  | LikeTok.anyOne :: p, _ :: t => toksMatch p t
  | LikeTok.lit _ :: _, [] => false
  | LikeTok.lit c :: p, a :: t => (c == a) && toksMatch p t
termination_by p t => (t.length, p.length)

/-- MySQL `LIKE`: does the pattern match the whole text. -/
def likeMatch (p t : List Char) : Bool := toksMatch (lexLike p) t

/-- The characters `escapeLikePattern` escapes: the regex class `[%_\\]`. -/
def isLikeMeta (c : Char) : Bool := c == '%' || c == '_' || c == '\\'

/-- Character-list version of `escapeLikePattern` from db.ts:
`str.replace(/[%_\\]/g, backslash-prefix-each-match)`. -/
def escapeLikeChars : List Char → List Char
  | [] => []
  | c :: rest =>
    if isLikeMeta c then '\\' :: c :: escapeLikeChars rest
    else c :: escapeLikeChars rest

/-- `escapeLikePattern` from db.ts. -/
def escapeLikePattern (s : String) : String := ⟨escapeLikeChars s.data⟩

/-- The pattern `getArticles` interpolates for a search term:
percent, escaped term, percent (`searchTerm` in db.ts). -/
def searchLikePattern (q : String) : List Char :=
  '%' :: (escapeLikeChars q.data ++ ['%'])

/-- `LIKE` applied to a non-null string column. -/
def strLike (pat : List Char) (s : String) : Bool := likeMatch pat s.data

/-- `LIKE` applied to a nullable column: NULL never matches. -/
def optStrLike (pat : List Char) : Option String → Bool
  | none => false
  | some s => strLike pat s

/-! ## Article query engine (`getArticles`, `getFeaturedArticles`, lookups) -/

/-- `orderBy` values accepted by `getArticles`. -/
inductive OrderKey
  | newest
  | oldest
  | weight
deriving DecidableEq, Repr

/-- The options object of `getArticles` (all fields optional in the code). -/
structure GetArticlesOptions where
  status : Option ArtStatus := none
  tagId : Option Nat := none
  seriesId : Option Nat := none
  year : Option Nat := none
  search : Option String := none
  limit : Option Nat := none
  offset : Option Nat := none
  orderBy : Option OrderKey := none
deriving DecidableEq, Repr

/-- JavaScript truthiness of an optional number: `undefined` and `0` are
falsy.  `getArticles` guards every numeric filter with `if (options.x)`. -/
def truthyNum : Option Nat → Bool
  | none => false
  | some n => n != 0

/-- JavaScript truthiness of an optional string: `undefined` and `""` are
falsy. -/
def truthyStr : Option String → Bool
  | none => false
  | some s => s != ""

/-- The AND of the `conditions` array built by `getArticles` (a guard that is
not pushed contributes `true`).  `YEAR(publishedAt) = y` is NULL-rejecting;
the search term is escaped and wrapped in percents before `LIKE`. -/
def articleCond (opts : GetArticlesOptions) (a : Article) : Bool :=
  (match opts.status with
   | some st => a.status == st
   | none => true) &&
  (if truthyNum opts.seriesId then a.seriesId == opts.seriesId else true) &&
  (if truthyNum opts.year then
     (match a.publishedAt with
      | some ts => some ts.year == opts.year
      | none => false)
   else true) &&
  (if truthyStr opts.search then
     (let pat := searchLikePattern (opts.search.getD "")
      strLike pat a.title || strLike pat a.content || optStrLike pat a.excerpt)
   else true)

/-- Ids of articles carrying a tag: the `articleTags` subquery of
`getArticles`. -/
def taggedArticleIds (s : DBState) (tid : Nat) : List Nat :=
  (s.articleTags.filter (fun r => r.tagId == tid)).map (fun r => r.articleId)

/-- Insert into a list sorted by the boolean comparator. -/
def insertSorted (le : α → α → Bool) (a : α) : List α → List α
  | [] => [a]
  | b :: bs => if le a b then a :: b :: bs else b :: insertSorted le a bs

/-- Deterministic sort by a boolean comparator (models SQL ORDER BY). -/
def sortByKey (le : α → α → Bool) : List α → List α
  | [] => []
  | a :: as => insertSorted le a (sortByKey le as)

/-- Timestamp order: by year, then by sequence number. -/
def tsLeB (x y : Timestamp) : Bool :=
  Nat.blt x.year y.year || (x.year == y.year && Nat.ble x.seq y.seq)

/-- Nullable-timestamp order with NULL smallest (so NULL sorts last under
DESC, as in MySQL). -/
def optTsLeB : Option Timestamp → Option Timestamp → Bool
  | none, _ => true
  | some _, none => false
  | some x, some y => tsLeB x y

/-- The ORDER BY chosen by `getArticles`: `oldest` is publishedAt ascending,
`weight` is weight descending then publishedAt descending, anything else
(including absent) is `newest`, publishedAt descending. -/
def orderLe (k : Option OrderKey) (a b : Article) : Bool :=
  match k with
  | some OrderKey.oldest => optTsLeB a.publishedAt b.publishedAt
  | some OrderKey.weight =>
      if a.weight == b.weight then optTsLeB b.publishedAt a.publishedAt
      else decide (b.weight ≤ a.weight)
  | _ => optTsLeB b.publishedAt a.publishedAt

/-- LIMIT/OFFSET, each applied only when truthy (`if (options.limit)`,
`if (options.offset)`); SQL drops `offset` rows then keeps `limit`. -/
def applyPagination (lim off : Option Nat) (l : List α) : List α :=
  let l1 := if truthyNum off then l.drop (off.getD 0) else l
  if truthyNum lim then l1.take (lim.getD 0) else l1

/-- Result shape of `getArticles`. -/
structure ArticlesPage where
  articles : List Article
  total : Nat
deriving DecidableEq, Repr

/-- `getArticles` from db.ts: build the filter conditions, resolve the tag
filter to an id set first (empty set short-circuits to an empty page), run
the filtered/ordered/paginated row query, and count with the same filter. -/
def getArticles (s : DBState) (opts : GetArticlesOptions) : ArticlesPage :=
  let cond := articleCond opts
  if truthyNum opts.tagId then
    let ids := taggedArticleIds s (opts.tagId.getD 0)
    if ids.isEmpty then ⟨[], 0⟩
    else
      let rows := s.articles.filter (fun a => cond a && ids.contains a.id)
      ⟨applyPagination opts.limit opts.offset (sortByKey (orderLe opts.orderBy) rows),
       (s.articles.filter (fun a => cond a && ids.contains a.id)).length⟩
  else
    let rows := s.articles.filter cond
    ⟨applyPagination opts.limit opts.offset (sortByKey (orderLe opts.orderBy) rows),
     (s.articles.filter cond).length⟩

/-- `getFeaturedArticles` from db.ts: published with weight > 0, ordered by
weight descending then publishedAt descending, capped. -/
def getFeaturedArticles (s : DBState) (lim : Nat) : List Article :=
  (sortByKey (orderLe (some OrderKey.weight))
    (s.articles.filter (fun a => a.status == ArtStatus.published && decide (0 < a.weight)))).take lim

/-- `getArticleById` from db.ts (`where id = ... limit 1`). -/
def getArticleById (s : DBState) (id : Nat) : Option Article :=
  (s.articles.filter (fun a => a.id == id)).head?

/-- `getArticleBySlug` from db.ts. -/
def getArticleBySlug (s : DBState) (slug : String) : Option Article :=
  (s.articles.filter (fun a => a.slug == slug)).head?

/-- `getUserById` from db.ts. -/
def getUserById (s : DBState) (id : Nat) : Option User :=
  (s.users.filter (fun u => u.id == id)).head?

/-- `getSeriesById` from db.ts. -/
def getSeriesById (s : DBState) (id : Nat) : Option Series :=
  (s.series.filter (fun x => x.id == id)).head?

/-- `getArticleTags` from db.ts: articleTags inner-joined with tags. -/
def getArticleTags (s : DBState) (aid : Nat) : List Tag :=
  (s.articleTags.filter (fun r => r.articleId == aid)).filterMap
    (fun r => (s.tags.filter (fun t => t.id == r.tagId)).head?)

/-! ## Mutation layer -/

/-- Fresh autoincrement id for the `articles` table. -/
def nextArticleId (s : DBState) : Nat :=
  (s.articles.foldl (fun m a => max m a.id) 0) + 1

/-- `InsertArticle` (drizzle `$inferInsert` for `articles`): required and
defaulted columns. -/
structure InsertArticle where
  slug : String
  title : String
  excerpt : Option String := none
  content : String
  coverImage : Option String := none
  authorId : Nat
  seriesId : Option Nat := none
  seriesOrder : Option Int := none
  weight : Int := 0
  status : ArtStatus := ArtStatus.draft
  publishedAt : Option Timestamp := none
  gallery : Option (List String) := none
  footnotes : Option (List (String × String)) := none
deriving Repr

/-- Materialize an insert as a row with the given id (viewCount defaults 0). -/
def insertRow (id : Nat) (d : InsertArticle) : Article :=
  { id := id, slug := d.slug, title := d.title, excerpt := d.excerpt,
    content := d.content, coverImage := d.coverImage, authorId := d.authorId,
    seriesId := d.seriesId, seriesOrder := d.seriesOrder, weight := d.weight,
    status := d.status, publishedAt := d.publishedAt, gallery := d.gallery,
    footnotes := d.footnotes, viewCount := 0 }

/-- `createArticle` from db.ts: insert, return the insertId. -/
def createArticle (s : DBState) (d : InsertArticle) : DBState × Nat :=
  let id := nextArticleId s
  ({ s with articles := s.articles ++ [insertRow id d] }, id)

/-- The partial update object reaching `db.updateArticle(id, data).set(...)`:
each present field overwrites the column.  `seriesId`/`seriesOrder` are
nullable in the update input (`some none` writes NULL); `publishedAt` is only
ever added by the router's stamping step. -/
structure ArticleUpdate where
  slug : Option String := none
  title : Option String := none
  excerpt : Option String := none
  content : Option String := none
  coverImage : Option String := none
  seriesId : Option (Option Nat) := none
  seriesOrder : Option (Option Int) := none
  weight : Option Int := none
  status : Option ArtStatus := none
  gallery : Option (List String) := none
  footnotes : Option (List (String × String)) := none
  publishedAt : Option Timestamp := none
deriving Repr

/-- Apply an UPDATE ... SET to one row: absent fields keep the column. -/
def applyArticleUpdate (u : ArticleUpdate) (a : Article) : Article :=
  { a with
    slug := u.slug.getD a.slug,
    title := u.title.getD a.title,
    excerpt := match u.excerpt with | some e => some e | none => a.excerpt,
    content := u.content.getD a.content,
    coverImage := match u.coverImage with | some e => some e | none => a.coverImage,
    seriesId := match u.seriesId with | some v => v | none => a.seriesId,
    seriesOrder := match u.seriesOrder with | some v => v | none => a.seriesOrder,
    weight := u.weight.getD a.weight,
    status := u.status.getD a.status,
    gallery := match u.gallery with | some g => some g | none => a.gallery,
    footnotes := match u.footnotes with | some f => some f | none => a.footnotes,
    publishedAt := match u.publishedAt with | some t => some t | none => a.publishedAt }

/-- `updateArticle` from db.ts. -/
def updateArticle (s : DBState) (id : Nat) (u : ArticleUpdate) : DBState :=
  { s with articles := s.articles.map (fun a => if a.id == id then applyArticleUpdate u a else a) }

/-- `incrementViewCount` from db.ts: atomic `viewCount = viewCount + 1`. -/
def incrementViewCount (s : DBState) (id : Nat) : DBState :=
  { s with articles :=
      s.articles.map (fun a => if a.id == id then { a with viewCount := a.viewCount + 1 } else a) }

/-- `setArticleTags` from db.ts: delete all links of the article, then bulk
insert the given tag ids (delete-all-then-insert, not a diff). -/
def setArticleTags (s : DBState) (aid : Nat) (tids : List Nat) : DBState :=
  let s1 := { s with articleTags := s.articleTags.filter (fun r => !(r.articleId == aid)) }
  if tids.length > 0 then
    { s1 with articleTags := s1.articleTags ++ tids.map (fun t => ⟨aid, t⟩) }
  else s1

/-- `updateCommentStatus` from db.ts: unconditional `set {status} where id`. -/
def updateCommentStatus (s : DBState) (id : Nat) (st : ComStatus) : DBState :=
  { s with comments :=
      s.comments.map (fun c => if c.id == id then { c with status := st } else c) }

/-- The recursion of `deleteComment` on the comments table: fetch the ids of
the children of `id`, recursively delete each child's subtree (threading the
table through, as each SQL delete commits before the next), then delete the
row itself.  The code recurses on the children relation; the fuel bounds that
recursion depth and `deleteComment` supplies more fuel than any acyclic
parent chain can consume. -/
def deleteCommentRows : Nat → List Comment → Nat → List Comment
  | 0, rows, _ => rows
  | fuel + 1, rows, id =>
    let children := (rows.filter (fun c => c.parentId == some id)).map (fun c => c.id)
    let rows2 := children.foldl (fun acc cid => deleteCommentRows fuel acc cid) rows
    rows2.filter (fun c => !(c.id == id))

/-- `deleteComment` from db.ts. -/
def deleteComment (s : DBState) (id : Nat) : DBState :=
  { s with comments := deleteCommentRows (s.comments.length + 1) s.comments id }

/-! ## tRPC router layer (`server/routers.ts`)

`publicProcedure` operations receive the request context but routers.ts does
not consult it; `adminProcedure` rejects unauthenticated callers
(`UNAUTHORIZED`) and non-admin users (`Admin access required`). -/

/-- Request context: the (possibly absent) authenticated user. -/
structure Ctx where
  user : Option User
deriving Repr

/-- `articles.list` input after zod validation (defaults applied). -/
structure ListInput where
  status : Option ArtStatus := none
  tagId : Option Nat := none
  seriesId : Option Nat := none
  year : Option Nat := none
  search : Option String := none
  limit : Nat := 20
  offset : Nat := 0
  orderBy : OrderKey := OrderKey.newest
deriving Repr

/-- `articles.list` (publicProcedure): spreads the input and replaces only an
*absent* status by "published" (`input?.status ?? "published"`); a
caller-supplied status value is passed through unchanged. -/
def articlesList (ctx : Ctx) (s : DBState) (input : Option ListInput) : ArticlesPage :=
  match input with
  | none => getArticles s { status := some ArtStatus.published }
  | some inp =>
      getArticles s
        { status := some (inp.status.getD ArtStatus.published),
          tagId := inp.tagId, seriesId := inp.seriesId, year := inp.year,
          search := inp.search, limit := some inp.limit, offset := some inp.offset,
          orderBy := some inp.orderBy }

/-- The merged single-article result shape of `getById`/`getBySlug`. -/
structure ArticleDetail where
  article : Article
  tags : List Tag
  author : Option User
  series : Option Series
deriving DecidableEq, Repr

/-- Resolve the three related collections and merge (the Promise.all step). -/
def articleWithRelations (s : DBState) (a : Article) : ArticleDetail :=
  { article := a, tags := getArticleTags s a.id, author := getUserById s a.authorId,
    series := match a.seriesId with | some sid => getSeriesById s sid | none => none }

/-- `articles.getById` (publicProcedure): plain lookup, null when absent.
routers.ts performs no status or role check here, so the context is unused. -/
def articlesGetById (ctx : Ctx) (s : DBState) (id : Nat) : Option ArticleDetail :=
  match getArticleById s id with
  | none => none
  | some a => some (articleWithRelations s a)

/-- `articles.getBySlug` (publicProcedure): lookup, then — when the
`incrementView` input flag is set and the article is published — increment
the view counter inside this query, then resolve relations against the
updated store.  Returns the result together with the post-call store. -/
def articlesGetBySlug (ctx : Ctx) (s : DBState) (slug : String) (incrementView : Bool) :
    Option ArticleDetail × DBState :=
  match getArticleBySlug s slug with
  | none => (none, s)
  | some a =>
    let s2 := if incrementView && a.status == ArtStatus.published
              then incrementViewCount s a.id else s
    (some (articleWithRelations s2 a), s2)

/-- `articles.create` input after zod validation. -/
structure CreateInput where
  slug : String
  title : String
  excerpt : Option String := none
  content : String
  coverImage : Option String := none
  seriesId : Option Nat := none
  seriesOrder : Option Int := none
  weight : Int := 0
  status : ArtStatus := ArtStatus.draft
  gallery : Option (List String) := none
  footnotes : Option (List (String × String)) := none
  tagIds : Option (List Nat) := none
deriving Repr

/-- The `data` object `articles.create` builds: the input fields, the acting
admin as author, and `publishedAt = now` exactly when the initial status is
"published". -/
def createRowOfInput (inp : CreateInput) (authorId : Nat) (now : Timestamp) : InsertArticle :=
  { slug := inp.slug, title := inp.title, excerpt := inp.excerpt,
    content := inp.content, coverImage := inp.coverImage, authorId := authorId,
    seriesId := inp.seriesId, seriesOrder := inp.seriesOrder,
    weight := inp.weight, status := inp.status,
    publishedAt := if inp.status == ArtStatus.published then some now else none,
    gallery := inp.gallery, footnotes := inp.footnotes }

/-- `articles.create` (adminProcedure): insert the built row; tag links are
set afterwards when a non-empty tagIds list was given. -/
def articlesCreate (ctx : Ctx) (s : DBState) (inp : CreateInput) (now : Timestamp) :
    Except String (DBState × Nat) :=
  match ctx.user with
  | none => Except.error "UNAUTHORIZED"
  | some u =>
    if u.role != Role.admin then Except.error "Admin access required"
    else
      let p := createArticle s (createRowOfInput inp u.id now)
      let s3 := match inp.tagIds with
        | some tids => if tids.length > 0 then setArticleTags p.1 p.2 tids else p.1
        | none => p.1
      Except.ok (s3, p.2)

/-- `articles.update` input after zod validation (`id` plus partial fields;
`seriesId`/`seriesOrder` are `.nullable().optional()`).  The input schema has
no `publishedAt` field — the router adds it. -/
structure UpdateInput where
  id : Nat
  slug : Option String := none
  title : Option String := none
  excerpt : Option String := none
  content : Option String := none
  coverImage : Option String := none
  seriesId : Option (Option Nat) := none
  seriesOrder : Option (Option Int) := none
  weight : Option Int := none
  status : Option ArtStatus := none
  gallery : Option (List String) := none
  footnotes : Option (List (String × String)) := none
  tagIds : Option (List Nat) := none
deriving Repr

/-- The router's stamping test: the stored article exists, the new status is
"published" and the stored status is not "published". -/
def updateStamp (s : DBState) (inp : UpdateInput) : Bool :=
  match getArticleById s inp.id with
  | some a => inp.status == some ArtStatus.published && !(a.status == ArtStatus.published)
  | none => false

/-- The SET object `articles.update` hands to `db.updateArticle`: the input's
partial fields, plus `publishedAt = now` when the stamping test fired. -/
def updateRowOfInput (inp : UpdateInput) (stamp : Bool) (now : Timestamp) : ArticleUpdate :=
  { slug := inp.slug, title := inp.title, excerpt := inp.excerpt,
    content := inp.content, coverImage := inp.coverImage, seriesId := inp.seriesId,
    seriesOrder := inp.seriesOrder, weight := inp.weight, status := inp.status,
    gallery := inp.gallery, footnotes := inp.footnotes,
    publishedAt := if stamp then some now else none }

/-- `articles.update` (adminProcedure): stamping test against the stored row,
the UPDATE, then tag re-linking whenever `tagIds` was provided (even empty). -/
def articlesUpdate (ctx : Ctx) (s : DBState) (inp : UpdateInput) (now : Timestamp) :
    Except String DBState :=
  match ctx.user with
  | none => Except.error "UNAUTHORIZED"
  | some u =>
    if u.role != Role.admin then Except.error "Admin access required"
    else
      let s2 := updateArticle s inp.id (updateRowOfInput inp (updateStamp s inp) now)
      let s3 := match inp.tagIds with
        | some tids => setArticleTags s2 inp.id tids
        | none => s2
      Except.ok s3

/-- `comments.approve` (adminProcedure). -/
def commentsApprove (ctx : Ctx) (s : DBState) (id : Nat) : Except String DBState :=
  match ctx.user with
  | none => Except.error "UNAUTHORIZED"
  | some u =>
    if u.role != Role.admin then Except.error "Admin access required"
    else Except.ok (updateCommentStatus s id ComStatus.approved)

/-- `comments.reject` (adminProcedure). -/
def commentsReject (ctx : Ctx) (s : DBState) (id : Nat) : Except String DBState :=
  match ctx.user with
  | none => Except.error "UNAUTHORIZED"
  | some u =>
    if u.role != Role.admin then Except.error "Admin access required"
    else Except.ok (updateCommentStatus s id ComStatus.rejected)

/-- `comments.delete` (adminProcedure). -/
def commentsDelete (ctx : Ctx) (s : DBState) (id : Nat) : Except String DBState :=
  match ctx.user with
  | none => Except.error "UNAUTHORIZED"
  | some u =>
    if u.role != Role.admin then Except.error "Admin access required"
    else Except.ok (deleteComment s id)

/-! ## Database-availability layer

db.ts initializes `db` to null when `DATABASE_URL` is unset.  Functions built
on `getDbOrNull` degrade (empty result, or a silent no-op for the
`incrementViewCount` write); functions built on `requireDb` throw
"Database not available". -/

/-- `getArticles` under `getDbOrNull`: degrades to an empty page. -/
def getArticlesD : Option DBState → GetArticlesOptions → ArticlesPage
  | none, _ => ⟨[], 0⟩
  | some s, opts => getArticles s opts

/-- `getArticleById` under `getDbOrNull`: degrades to undefined. -/
def getArticleByIdD : Option DBState → Nat → Option Article
  | none, _ => none
  | some s, id => getArticleById s id

/-- `getFeaturedArticles` under `requireDb`: throws without a connection. -/
def getFeaturedArticlesD : Option DBState → Nat → Except String (List Article)
  | none, _ => Except.error "Database not available"
  | some s, lim => Except.ok (getFeaturedArticles s lim)

/-- `getSeriesById` under `requireDb`: throws without a connection. -/
def getSeriesByIdD : Option DBState → Nat → Except String (Option Series)
  | none, _ => Except.error "Database not available"
  | some s, id => Except.ok (getSeriesById s id)

/-- `incrementViewCount` under `getDbOrNull`: a WRITE that silently returns
without doing anything when no connection is available. -/
def incrementViewCountD : Option DBState → Nat → Except String (Option DBState)
  | none, _ => Except.ok none
  | some s, id => Except.ok (some (incrementViewCount s id))

/-- `createArticle` under `requireDb`: throws without a connection. -/
def createArticleD : Option DBState → InsertArticle → Except String (Option DBState × Nat)
  | none, _ => Except.error "Database not available"
  | some s, d => Except.ok (some (createArticle s d).1, (createArticle s d).2)

/-- `updateCommentStatus` under `requireDb`: throws without a connection. -/
def updateCommentStatusD : Option DBState → Nat → ComStatus → Except String (Option DBState)
  | none, _, _ => Except.error "Database not available"
  | some s, id, st => Except.ok (some (updateCommentStatus s id st))

/-! ## Concrete fixtures -/

/-- An administrator. -/
def adminUser : User := { id := 1, openId := "admin", name := some "Admin", role := Role.admin }

/-- The empty store. -/
def emptyState : DBState :=
  { users := [], series := [], tags := [], articles := [], articleTags := [], comments := [] }

/-- A draft article. -/
def draftArticle : Article :=
  { id := 1, slug := "draft-post", title := "Draft", excerpt := none, content := "body",
    coverImage := none, authorId := 1, seriesId := none, seriesOrder := none, weight := 0,
    status := ArtStatus.draft, publishedAt := none, gallery := none, footnotes := none,
    viewCount := 0 }

/-- A store holding one draft article. -/
def draftState : DBState := { emptyState with users := [adminUser], articles := [draftArticle] }

/-- A published article with zero views. -/
def pubArticle : Article :=
  { draftArticle with
    id := 2,
    slug := "hello",
    status := ArtStatus.published,
    publishedAt := some ⟨2023, 1⟩ }

/-- A store holding one published article. -/
def pubState : DBState := { emptyState with users := [adminUser], articles := [pubArticle] }

/-- An archived article first published in 2020. -/
def archivedArticle : Article :=
  { draftArticle with
    id := 3,
    slug := "old",
    status := ArtStatus.archived,
    publishedAt := some ⟨2020, 1⟩ }

/-- A store holding one archived article. -/
def archivedState : DBState :=
  { emptyState with users := [adminUser], articles := [archivedArticle] }

/-- Root of a three-comment reply chain. -/
def rootComment : Comment :=
  { id := 1, articleId := 10, authorId := 1, parentId := none, content := "root",
    status := ComStatus.approved }

/-- Reply to the root. -/
def childComment : Comment := { rootComment with id := 2, parentId := some 1, content := "child" }

/-- Reply to the reply. -/
def grandComment : Comment := { childComment with id := 3, parentId := some 2, content := "grand" }

/-- A store holding the chain root, child, grandchild. -/
def chainState : DBState :=
  { emptyState with comments := [rootComment, childComment, grandComment] }

/-- A second direct reply to the root. -/
def sibComment : Comment := { rootComment with id := 4, parentId := some 1, content := "sib" }

/-- A comment outside the root's subtree. -/
def otherComment : Comment := { rootComment with id := 9, content := "other" }

/-- The chain plus a sibling branch and an unrelated comment. -/
def forestState : DBState :=
  { emptyState with
    comments := [rootComment, childComment, grandComment, sibComment, otherComment] }

/-- A comment already rejected by moderation. -/
def rejectedComment : Comment :=
  { id := 5, articleId := 10, authorId := 2, parentId := none, content := "nope",
    status := ComStatus.rejected }

/-- A store holding one rejected comment. -/
def moderationState : DBState := { emptyState with comments := [rejectedComment] }

/-! ## Contract formulations -/

/-- Publish-stamping contract of `articles.create` for an acting user and
store: every create succeeds, appends exactly one row, and that row carries
`publishedAt = now` exactly when the initial status is "published" (else
null). -/
def CreateStamps (u : User) (s : DBState) (now : Timestamp) : Prop :=
  ∀ inp : CreateInput, ∃ s2 id,
    articlesCreate { user := some u } s inp now = Except.ok (s2, id) ∧
    ∃ row, s2.articles = s.articles ++ [row] ∧ row.id = id ∧ row.status = inp.status ∧
      row.publishedAt = (if inp.status = ArtStatus.published then some now else none)

/-- Publish-stamping contract of `articles.update`: for a stored article
`a` found under the input id, the update succeeds and every row with that id
gets the requested status, while its `publishedAt` becomes `now` exactly when
the new status is "published" and the stored status was not — otherwise the
old value is kept (updates staying published, moving away from published, or
without a status field never touch it). -/
def UpdateStamps (u : User) (s : DBState) (now : Timestamp) : Prop :=
  ∀ inp : UpdateInput, ∀ a, getArticleById s inp.id = some a →
    ∃ s2, articlesUpdate { user := some u } s inp now = Except.ok s2 ∧
      ∀ c, c ∈ s.articles → c.id = inp.id →
        ∃ c2, c2 ∈ s2.articles ∧ c2.id = inp.id ∧
          c2.status = inp.status.getD c.status ∧
          c2.publishedAt =
            (if inp.status = some ArtStatus.published ∧ a.status ≠ ArtStatus.published
             then some now else c.publishedAt)

/-- Moderation contract of `comments.approve` / `comments.reject`: both
succeed and overwrite the target comment's status with the requested value,
with no precondition on the comment's current status. -/
def ModerationSetsStatus (u : User) (s : DBState) (cid : Nat) : Prop :=
  (∃ s2, commentsApprove { user := some u } s cid = Except.ok s2 ∧
     ∀ c, c ∈ s.comments → c.id = cid →
       ∃ c2, c2 ∈ s2.comments ∧ c2.id = cid ∧ c2.status = ComStatus.approved) ∧
  (∃ s2, commentsReject { user := some u } s cid = Except.ok s2 ∧
     ∀ c, c ∈ s.comments → c.id = cid →
       ∃ c2, c2 ∈ s2.comments ∧ c2.id = cid ∧ c2.status = ComStatus.rejected)

/-! ## Claim theorems -/

/-- `setArticleTags` touches only the articleTags table. -/
theorem setArticleTags_articles (s : DBState) (aid : Nat) (tids : List Nat) :
    (setArticleTags s aid tids).articles = s.articles := by
  simp only [setArticleTags]
  split <;> rfl

/-- Evaluate `articles.create` for an admin caller: it returns the fresh id
and a store whose articles table grew by exactly the built row. -/
theorem articlesCreate_eval (u : User) (s : DBState) (inp : CreateInput) (now : Timestamp)
    (hadmin : u.role = Role.admin) :
    ∃ s2, articlesCreate { user := some u } s inp now = Except.ok (s2, nextArticleId s) ∧
      s2.articles = s.articles ++ [insertRow (nextArticleId s) (createRowOfInput inp u.id now)] := by
  have hrole : (u.role != Role.admin) = false := by simp [hadmin]
  cases htids : inp.tagIds with
  | none =>
    refine ⟨(createArticle s (createRowOfInput inp u.id now)).1, ?_, rfl⟩
    simp [articlesCreate, hrole, htids]
    rfl
  | some tids =>
    by_cases hlen : tids.length > 0
    · refine ⟨setArticleTags (createArticle s (createRowOfInput inp u.id now)).1
          (createArticle s (createRowOfInput inp u.id now)).2 tids, ?_, ?_⟩
      · simp [articlesCreate, hrole, htids, hlen]
        rfl
      · rw [setArticleTags_articles]
        rfl
    · refine ⟨(createArticle s (createRowOfInput inp u.id now)).1, ?_, rfl⟩
      simp [articlesCreate, hrole, htids, hlen]
      rfl

/-- The create half of the publish-stamping contract holds for any admin. -/
theorem createStamps_holds (u : User) (s : DBState) (now : Timestamp)
    (hadmin : u.role = Role.admin) : CreateStamps u s now := by
  intro inp
  obtain ⟨s2, heq, harts⟩ := articlesCreate_eval u s inp now hadmin
  refine ⟨s2, nextArticleId s, heq,
    insertRow (nextArticleId s) (createRowOfInput inp u.id now), harts, rfl, rfl, ?_⟩
  by_cases hst : inp.status = ArtStatus.published
  · simp [insertRow, createRowOfInput, hst]
  · simp [insertRow, createRowOfInput, hst]

/-- Evaluate `articles.update` for an admin caller: it succeeds and the
resulting articles table is the mapped UPDATE of the old one. -/
theorem articlesUpdate_eval (u : User) (s : DBState) (inp : UpdateInput) (now : Timestamp)
    (hadmin : u.role = Role.admin) :
    ∃ s2, articlesUpdate { user := some u } s inp now = Except.ok s2 ∧
      s2.articles
        = (updateArticle s inp.id (updateRowOfInput inp (updateStamp s inp) now)).articles := by
  have hrole : (u.role != Role.admin) = false := by simp [hadmin]
  cases htids : inp.tagIds with
  | none =>
    refine ⟨updateArticle s inp.id (updateRowOfInput inp (updateStamp s inp) now), ?_, rfl⟩
    simp [articlesUpdate, hrole, htids]
  | some tids =>
    refine ⟨setArticleTags
        (updateArticle s inp.id (updateRowOfInput inp (updateStamp s inp) now)) inp.id tids,
      ?_, ?_⟩
    · simp [articlesUpdate, hrole, htids]
    · rw [setArticleTags_articles]

/-- The update half of the publish-stamping contract holds for any admin. -/
theorem updateStamps_holds (u : User) (s : DBState) (now : Timestamp)
    (hadmin : u.role = Role.admin) : UpdateStamps u s now := by
  intro inp a ha
  obtain ⟨s2, heq, harts⟩ := articlesUpdate_eval u s inp now hadmin
  refine ⟨s2, heq, ?_⟩
  intro c hc hcid
  have hstamp : updateStamp s inp
      = (inp.status == some ArtStatus.published && !(a.status == ArtStatus.published)) := by
    simp [updateStamp, ha]
  refine ⟨applyArticleUpdate (updateRowOfInput inp (updateStamp s inp) now) c, ?_, hcid, rfl, ?_⟩
  · rw [harts]
    unfold updateArticle
    have := List.mem_map_of_mem
      (fun x => if x.id == inp.id
                then applyArticleUpdate (updateRowOfInput inp (updateStamp s inp) now) x else x) hc
    simpa [hcid] using this
  · by_cases hcond : inp.status = some ArtStatus.published ∧ a.status ≠ ArtStatus.published
    · have hs : updateStamp s inp = true := by
        rw [hstamp]
        simp [hcond.1, hcond.2]
      simp [applyArticleUpdate, updateRowOfInput, hs, hcond]
    · have hs : updateStamp s inp = false := by
        rw [hstamp]
        rcases not_and_or.mp hcond with h | h
        · simp [h]
        · rw [not_not] at h
          simp [h]
      simp [applyArticleUpdate, updateRowOfInput, hs, hcond]

/-- The moderation contract holds for any admin. -/
theorem moderationSets_holds (u : User) (s : DBState) (cid : Nat)
    (hadmin : u.role = Role.admin) : ModerationSetsStatus u s cid := by
  have hrole : (u.role != Role.admin) = false := by simp [hadmin]
  constructor
  · refine ⟨updateCommentStatus s cid ComStatus.approved, by simp [commentsApprove, hrole], ?_⟩
    intro c hc hcid
    refine ⟨{ c with status := ComStatus.approved }, ?_, hcid, rfl⟩
    unfold updateCommentStatus
    have := List.mem_map_of_mem
      (fun x => if x.id == cid then { x with status := ComStatus.approved } else x) hc
    simpa [hcid] using this
  · refine ⟨updateCommentStatus s cid ComStatus.rejected, by simp [commentsReject, hrole], ?_⟩
    intro c hc hcid
    refine ⟨{ c with status := ComStatus.rejected }, ?_, hcid, rfl⟩
    unfold updateCommentStatus
    have := List.mem_map_of_mem
      (fun x => if x.id == cid then { x with status := ComStatus.rejected } else x) hc
    simpa [hcid] using this

/-- A lone `%` token matches every text. -/
theorem toksMatch_anySeq_nil (t : List Char) : toksMatch [LikeTok.anySeq] t = true := by
  induction t with
  | nil => simp [toksMatch]
  | cons a t ih => simp [toksMatch, ih]

/-- A leading `%` token matches a text iff some split of the text lets the
rest of the pattern match the second part. -/
theorem toksMatch_anySeq_iff (p : List LikeTok) (t : List Char) :
    toksMatch (LikeTok.anySeq :: p) t = true ↔
      ∃ t1 t2, t = t1 ++ t2 ∧ toksMatch p t2 = true := by
  induction t with
  | nil =>
    rw [show toksMatch (LikeTok.anySeq :: p) [] = toksMatch p [] from by simp [toksMatch]]
    constructor
    · intro h; exact ⟨[], [], rfl, h⟩
    · rintro ⟨t1, t2, heq, h⟩
      rw [eq_comm, List.append_eq_nil] at heq
      obtain ⟨rfl, rfl⟩ := heq
      exact h
  | cons a t ih =>
    rw [show toksMatch (LikeTok.anySeq :: p) (a :: t)
          = (toksMatch p (a :: t) || toksMatch (LikeTok.anySeq :: p) t) from by
        simp [toksMatch]]
    rw [Bool.or_eq_true, ih]
    constructor
    · rintro (h | ⟨t1, t2, heq, h⟩)
      · exact ⟨[], a :: t, rfl, h⟩
      · exact ⟨a :: t1, t2, by rw [heq]; rfl, h⟩
    · rintro ⟨t1, t2, heq, h⟩
      cases t1 with
      | nil =>
        simp only [List.nil_append] at heq
        exact Or.inl (by rw [heq]; exact h)
      | cons b t1 =>
        simp only [List.cons_append, List.cons.injEq] at heq
        exact Or.inr ⟨t1, t2, heq.2, h⟩

/-- A block of literal tokens matches exactly its own characters, as a strict
prefix of the text, and hands the remainder to the rest of the pattern. -/
theorem toksMatch_litBlock (s : List Char) (p : List LikeTok) (t : List Char) :
    toksMatch (s.map LikeTok.lit ++ p) t = true ↔
      ∃ t2, t = s ++ t2 ∧ toksMatch p t2 = true := by
  induction s generalizing t with
  | nil => simp
  | cons c s ih =>
    cases t with
    | nil =>
      rw [show toksMatch ((c :: s).map LikeTok.lit ++ p) [] = false from by simp [toksMatch]]
      simp
    | cons a t =>
      rw [show toksMatch ((c :: s).map LikeTok.lit ++ p) (a :: t)
            = ((c == a) && toksMatch (s.map LikeTok.lit ++ p) t) from by simp [toksMatch]]
      rw [Bool.and_eq_true, beq_iff_eq, ih]
      constructor
      · rintro ⟨rfl, t2, rfl, h⟩
        exact ⟨t2, rfl, h⟩
      · rintro ⟨t2, heq, h⟩
        simp only [List.cons_append, List.cons.injEq] at heq
        exact ⟨heq.1.symm, t2, heq.2, h⟩

/-- Lexing an escaped block: every character of the original string comes out
as a literal token, whatever follows is lexed on its own. -/
theorem lexLike_escape (s p : List Char) :
    lexLike (escapeLikeChars s ++ p) = s.map LikeTok.lit ++ lexLike p := by
  induction s with
  | nil => rfl
  | cons c s ih =>
    by_cases h : isLikeMeta c = true
    · simp [escapeLikeChars, h, lexLike, lexLikeEsc, ih]
    · have h1 : ¬ c = '%' := fun hc => h (by simp [isLikeMeta, hc])
      have h2 : ¬ c = '_' := fun hc => h (by simp [isLikeMeta, hc])
      have h3 : ¬ c = '\\' := fun hc => h (by simp [isLikeMeta, hc])
      simp [escapeLikeChars, h, lexLike, h1, h2, h3, ih]

/-- C5: the publish timestamp is one-way: creating a draft yields
`publishedAt = null` while creating as published stamps it with the creation
time; on update it is (re)stamped to now exactly when the stored status was
not "published" and the new status is "published", and updates keeping the
status published or moving away from it leave `publishedAt` untouched. -/
theorem publish_timestamp_one_way (u : User) (s : DBState) (now : Timestamp)
    (hadmin : u.role = Role.admin) : CreateStamps u s now ∧ UpdateStamps u s now :=
  ⟨createStamps_holds u s now hadmin, updateStamps_holds u s now hadmin⟩

/-- C5 witness: the publish-stamping contracts at the admin fixture, the
published-article store and a concrete clock. -/
theorem publish_timestamp_one_way_witness :
    adminUser.role = Role.admin
    ∧ (CreateStamps adminUser pubState ⟨2024, 5⟩ ∧ UpdateStamps adminUser pubState ⟨2024, 5⟩) :=
  ⟨rfl, publish_timestamp_one_way adminUser pubState ⟨2024, 5⟩ rfl⟩

/-- C6 amended: updating an article from "archived" to "published"
RESTAMPS `publishedAt` to the update time (the stored status archived is not
"published", so the previous-status rule fires); the originally stored
publish timestamp is overwritten, not retained. -/
theorem archived_republish_restamps (u : User) (s : DBState) (inp : UpdateInput)
    (now : Timestamp) (hadmin : u.role = Role.admin) (a : Article)
    (ha : getArticleById s inp.id = some a) (harch : a.status = ArtStatus.archived)
    (hpub : inp.status = some ArtStatus.published) :
    ∃ s2, articlesUpdate { user := some u } s inp now = Except.ok s2 ∧
      ∀ c, c ∈ s.articles → c.id = inp.id →
        ∃ c2, c2 ∈ s2.articles ∧ c2.id = inp.id ∧ c2.publishedAt = some now := by
  obtain ⟨s2, heq, hall⟩ := updateStamps_holds u s now hadmin inp a ha
  refine ⟨s2, heq, fun c hc hcid => ?_⟩
  obtain ⟨c2, hm, hid, _, hpa⟩ := hall c hc hcid
  refine ⟨c2, hm, hid, ?_⟩
  rw [hpa, if_pos ⟨hpub, by simp [harch]⟩]

/-- C6 amended witness: republishing the archived fixture article (first
published 2020) at time ⟨2024, 2⟩ stamps ⟨2024, 2⟩. -/
theorem archived_republish_restamps_witness :
    adminUser.role = Role.admin
    ∧ getArticleById archivedState 3 = some archivedArticle
    ∧ archivedArticle.status = ArtStatus.archived
    ∧ ({ id := 3, status := some ArtStatus.published } : UpdateInput).status
        = some ArtStatus.published
    ∧ (∃ s2, articlesUpdate { user := some adminUser } archivedState
          { id := 3, status := some ArtStatus.published } ⟨2024, 2⟩ = Except.ok s2 ∧
        ∀ c, c ∈ archivedState.articles → c.id = 3 →
          ∃ c2, c2 ∈ s2.articles ∧ c2.id = 3 ∧ c2.publishedAt = some ⟨2024, 2⟩) :=
  ⟨rfl, rfl, rfl, rfl,
    archived_republish_restamps adminUser archivedState
      { id := 3, status := some ArtStatus.published } ⟨2024, 2⟩ rfl archivedArticle rfl rfl rfl⟩

/-- C9: `comments.approve` and `comments.reject` overwrite the target
comment's status unconditionally — no precondition on the current status, so
rejected → approved and approved → rejected are possible, beyond the
documented pending → approved/rejected machine. -/
theorem moderation_overwrites_any_status (u : User) (s : DBState) (cid : Nat)
    (hadmin : u.role = Role.admin) : ModerationSetsStatus u s cid :=
  moderationSets_holds u s cid hadmin

/-- C9 witness: the moderation contract on a store whose comment 5 is
already rejected — so approving it performs the rejected → approved
transition. -/
theorem moderation_overwrites_any_status_witness :
    adminUser.role = Role.admin ∧ ModerationSetsStatus adminUser moderationState 5 :=
  ⟨rfl, moderation_overwrites_any_status adminUser moderationState 5 rfl⟩

/-- C7: the pattern `getArticles` interpolates for a search term — percent,
escaped term, percent — matches a text under MySQL LIKE semantics exactly
when the raw term occurs literally as a contiguous substring of the text:
every `%`, `_` and backslash of the term (e.g. the `%` of "50% off") is
matched literally, never as a wildcard, for every search string and text. -/
theorem escaped_search_matches_literally (q : String) (t : List Char) :
    likeMatch (searchLikePattern q) t = true ↔ ∃ t1 t2, t = t1 ++ q.data ++ t2 := by
  have h1 : lexLike (escapeLikeChars q.data ++ ['%'])
      = q.data.map LikeTok.lit ++ lexLike ['%'] := lexLike_escape q.data ['%']
  have h2 : lexLike ['%'] = [LikeTok.anySeq] := by simp [lexLike]
  have hlex : lexLike ('%' :: (escapeLikeChars q.data ++ ['%']))
      = LikeTok.anySeq :: (q.data.map LikeTok.lit ++ [LikeTok.anySeq]) := by
    rw [h2] at h1
    simp [lexLike, h1]
  unfold likeMatch searchLikePattern
  rw [hlex, toksMatch_anySeq_iff]
  constructor
  · rintro ⟨t1, t2, rfl, h⟩
    rw [toksMatch_litBlock] at h
    obtain ⟨t3, rfl, h3⟩ := h
    exact ⟨t1, t3, by simp⟩
  · rintro ⟨t1, t2, rfl⟩
    refine ⟨t1, q.data ++ t2, by simp, ?_⟩
    rw [toksMatch_litBlock]
    exact ⟨t2, rfl, toksMatch_anySeq_nil t2⟩

/-- C1: FALSE of the code — `articles.getById` performs no visibility check:
an anonymous (non-admin) requester fetching a draft article by id receives
the full article, not null, exactly as an admin does.  (routers.ts L174-187
never consults the requester or the status; the repository's CODE_REVIEW.md
item 1 records this as a high-severity bug.) -/
theorem getById_leaks_draft_to_non_admin :
    (articlesGetById { user := none } draftState 1).map (fun d => d.article) = some draftArticle
    ∧ draftArticle.status = ArtStatus.draft
    ∧ (articlesGetById { user := some adminUser } draftState 1).map (fun d => d.article)
        = some draftArticle := by
  exact ⟨rfl, rfl, rfl⟩

/-- C2: FALSE of the code — `articles.list` computes
`status := input.status ?? "published"`, so the "published" filter applies
only when the caller omits status: an anonymous caller passing
`status: "draft"` gets the draft articles back.  (CODE_REVIEW.md item 17.) -/
theorem list_passes_caller_status_through :
    (articlesList { user := none } draftState
        (some { status := some ArtStatus.draft })).articles = [draftArticle]
    ∧ draftArticle.status ≠ ArtStatus.published := by
  exact ⟨rfl, by decide⟩

/-- C3: FALSE of the code — the `articles.getBySlug` read itself increments
`viewCount` when its `incrementView` flag is set and the article is
published; there is no separate `articles.incrementView` operation in
routers.ts.  Reading the fixture article bumps its stored view count from 0
to 1.  (CODE_REVIEW.md item 2.) -/
theorem getBySlug_increments_viewCount_on_read :
    (articlesGetBySlug { user := none } pubState "hello" true).2.articles.map Article.viewCount
      = [1]
    ∧ pubState.articles.map Article.viewCount = [0]
    ∧ (articlesGetBySlug { user := none } pubState "hello" true).2 ≠ pubState := by
  exact ⟨rfl, rfl, by decide⟩

/-- C4: deleting a comment removes its whole descendant subtree: on the chain
root (1) → child (2) → grandchild (3), deleting the root empties the table,
and deleting the child keeps the root and removes the grandchild; on the
branching store (root with children 2 and 4, grandchild 3 under 2, unrelated
comment 9) deleting the root removes the whole subtree and nothing else. -/
theorem deleteComment_removes_subtree :
    (deleteComment chainState 1).comments = []
    ∧ (deleteComment chainState 2).comments = [rootComment]
    ∧ (deleteComment forestState 1).comments = [otherComment] := by
  exact ⟨rfl, rfl, rfl⟩

/-- C6 counterexample: FALSE — updating the archived fixture article (first
published 2020) to "published" at time ⟨2024, 2⟩ restamps `publishedAt` to
⟨2024, 2⟩; the stored 2020 timestamp is not retained (the stamping test
`article.status !== "published"` fires for archived rows). -/
theorem archived_republish_keeps_timestamp_cex :
    articlesUpdate { user := some adminUser } archivedState
        { id := 3, status := some ArtStatus.published } ⟨2024, 2⟩
      = Except.ok { archivedState with
          articles :=
            [{ archivedArticle with
               status := ArtStatus.published,
               publishedAt := some ⟨2024, 2⟩ }] }
    ∧ archivedArticle.publishedAt = some ⟨2020, 1⟩
    ∧ some (⟨2024, 2⟩ : Timestamp) ≠ some (⟨2020, 1⟩ : Timestamp) := by
  refine ⟨by rfl, by rfl, by decide⟩

/-- C8 counterexample: FALSE — with no database connection the write
`incrementViewCount` does not throw (it silently returns with nothing
written), while the read `getFeaturedArticles` throws instead of returning an
empty result. -/
theorem no_db_policy_cex :
    incrementViewCountD none 1 = Except.ok none
    ∧ getFeaturedArticlesD none 5 = Except.error "Database not available" := by
  exact ⟨rfl, rfl⟩

/-- C8 amended: with no database connection, `getArticles` degrades to an
empty page and `getArticleById` to undefined; but the `requireDb`-based reads
(`getFeaturedArticles`, `getSeriesById`) throw, the `requireDb`-based writes
(`createArticle`, `updateCommentStatus`) throw, and the `incrementViewCount`
write silently no-ops. -/
theorem no_db_behavior_by_function (opts : GetArticlesOptions) (id lim sid cid : Nat)
    (d : InsertArticle) (st : ComStatus) :
    getArticlesD none opts = ⟨[], 0⟩
    ∧ getArticleByIdD none id = none
    ∧ getFeaturedArticlesD none lim = Except.error "Database not available"
    ∧ getSeriesByIdD none sid = Except.error "Database not available"
    ∧ createArticleD none d = Except.error "Database not available"
    ∧ updateCommentStatusD none cid st = Except.error "Database not available"
    ∧ incrementViewCountD none id = Except.ok none := by
  exact ⟨rfl, rfl, rfl, rfl, rfl, rfl, rfl⟩

/-- C10: a numeric filter given as 0 is treated as absent (JavaScript
truthiness in the `if (options.x)` guards): `seriesId = 0`, `year = 0` and
`tagId = 0` each yield the same page as omitting the filter. -/
theorem zero_filters_treated_as_absent (s : DBState) (opts : GetArticlesOptions) :
    getArticles s { opts with seriesId := some 0 } = getArticles s { opts with seriesId := none }
    ∧ getArticles s { opts with year := some 0 } = getArticles s { opts with year := none }
    ∧ getArticles s { opts with tagId := some 0 } = getArticles s { opts with tagId := none } := by
  refine ⟨?_, ?_, ?_⟩ <;> rfl

end Blog
